import Mathlib

/-!
A verification development for the ogmios.rs client core: a shallow embedding
of the wire codec (serde JSON), the transport actor of `src/connection.rs`,
and the chain-synchronization engine of `src/chain_synchronization/`, with
theorems settling the specification's claims about them.
-/

namespace Ogmios

/-- JSON values as produced and consumed by serde_json.  Numbers are restricted
to the unsigned integers used by the embedded schema types (u32/u64 slots,
heights, sizes), so `Nat` suffices. -/
inductive Json where
  | null : Json
  | bool (b : Bool) : Json
  | num (n : Nat) : Json
  | str (s : String) : Json
  | arr (elems : List Json) : Json
  | obj (fields : List (String × Json)) : Json
deriving Repr

/-- Field access in a JSON object, as serde's map visitor sees it (first
occurrence of a key wins; non-objects have no fields). -/
def Json.get? (j : Json) (key : String) : Option Json :=
  match j with
  | .obj fields => fields.lookup key
  | _ => none

/-- Expect a JSON string. -/
def Json.asStr? : Json → Option String
  | .str s => some s
  | _ => none

/-- Expect a JSON number (unsigned). -/
def Json.asNat? : Json → Option Nat
  | .num n => some n
  | _ => none

/-- Expect a JSON array. -/
def Json.asArr? : Json → Option (List Json)
  | .arr xs => some xs
  | _ => none

/-- Deserialize an `Option<T>` field declared with serde(default): a missing key
or an explicit null yields `none`; any other present value must parse. -/
def Json.optField (j : Json) (key : String) (p : Json → Option α) : Option (Option α) :=
  match j.get? key with
  | none => some none
  | some .null => some none
  | some v => (p v).map some

/-- Serialize an `Option<T>` field that has no skip_serializing_if attribute:
`none` is emitted as null (serde's default for `Option`). -/
def Json.ofOption (p : α → Json) : Option α → Json
  | none => .null
  | some a => p a

/-- `Point` from `src/schema/primitives.rs`: untagged sum of the origin marker
(a bare JSON string) and a slot/id object. -/
inductive Point where
  | Origin (s : String)
  | point (slot : Nat) (id : String)
deriving Repr, DecidableEq

/-- `Point::origin()`. -/
def Point.origin : Point := .Origin "origin"

/-- `Point::at(slot, id)`. -/
def Point.at (slot : Nat) (id : String) : Point := .point slot id

/-- Serialization of `Point` (serde untagged: each variant serializes as its
content; fields in declaration order). -/
def Point.toJson : Point → Json
  | .Origin s => .str s
  | .point slot id => .obj [("slot", .num slot), ("id", .str id)]

/-- Deserialization of the `Origin(String)` variant of `Point`. -/
def Point.originFromJson? (j : Json) : Option Point :=
  (j.asStr?).map Point.Origin

/-- Deserialization of the struct variant of `Point` (both fields required,
unknown fields ignored, as derived serde code does without
deny_unknown_fields). -/
def Point.pointFromJson? (j : Json) : Option Point :=
  ((j.get? "slot").bind Json.asNat?).bind fun slot =>
  ((j.get? "id").bind Json.asStr?).bind fun id =>
  some (Point.point slot id)

/-- Deserialization of `Point` (serde untagged: variants are tried in
declaration order, `Origin` first). -/
def Point.fromJson? (j : Json) : Option Point :=
  Point.originFromJson? j <|> Point.pointFromJson? j

/-- `Tip` from `src/schema/primitives.rs`: untagged sum of the origin marker
and a slot/id/height object. -/
inductive Tip where
  | Origin (s : String)
  | tip (slot : Nat) (id : String) (height : Nat)
deriving Repr, DecidableEq

/-- Serialization of `Tip`. -/
def Tip.toJson : Tip → Json
  | .Origin s => .str s
  | .tip slot id height =>
      .obj [("slot", .num slot), ("id", .str id), ("height", .num height)]

/-- Deserialization of the `Origin(String)` variant of `Tip`. -/
def Tip.originFromJson? (j : Json) : Option Tip :=
  (j.asStr?).map Tip.Origin

/-- Deserialization of the struct variant of `Tip`. -/
def Tip.tipFromJson? (j : Json) : Option Tip :=
  ((j.get? "slot").bind Json.asNat?).bind fun slot =>
  ((j.get? "id").bind Json.asStr?).bind fun id =>
  ((j.get? "height").bind Json.asNat?).bind fun height =>
  some (Tip.tip slot id height)

/-- Deserialization of `Tip` (untagged, `Origin` tried first). -/
def Tip.fromJson? (j : Json) : Option Tip :=
  Tip.originFromJson? j <|> Tip.tipFromJson? j

/-- `SoftwareVersion` from `src/schema/block.rs` (camelCase keys). -/
structure SoftwareVersion where
  app_name : String
  number : Nat
deriving Repr, DecidableEq

/-- Serialization of `SoftwareVersion`. -/
def SoftwareVersion.toJson (v : SoftwareVersion) : Json :=
  .obj [("appName", .str v.app_name), ("number", .num v.number)]

/-- Deserialization of `SoftwareVersion`. -/
def SoftwareVersion.fromJson? (j : Json) : Option SoftwareVersion :=
  ((j.get? "appName").bind Json.asStr?).bind fun appName =>
  ((j.get? "number").bind Json.asNat?).bind fun number =>
  some ⟨appName, number⟩

/-- `ProtocolVersionByron` from `src/schema/block.rs`; `update` holds a raw
`serde_json::Value`, modelled directly as `Json`. -/
structure ProtocolVersionByron where
  software : Option SoftwareVersion
  update : Option Json
deriving Repr

/-- Serialization of `ProtocolVersionByron` (no skip_serializing_if, so `None`
fields are emitted as null). -/
def ProtocolVersionByron.toJson (v : ProtocolVersionByron) : Json :=
  .obj [("software", Json.ofOption SoftwareVersion.toJson v.software),
        ("update", Json.ofOption id v.update)]

/-- Deserialization of `ProtocolVersionByron` (both fields serde(default)). -/
def ProtocolVersionByron.fromJson? (j : Json) : Option ProtocolVersionByron :=
  (j.optField "software" SoftwareVersion.fromJson?).bind fun software =>
  (j.optField "update" some).bind fun update =>
  some ⟨software, update⟩

/-- `ProtocolVersionPraos` from `src/schema/block.rs`. -/
structure ProtocolVersionPraos where
  major : Nat
  minor : Nat
  patch : Option Nat
deriving Repr, DecidableEq

/-- Serialization of `ProtocolVersionPraos`. -/
def ProtocolVersionPraos.toJson (v : ProtocolVersionPraos) : Json :=
  .obj [("major", .num v.major), ("minor", .num v.minor),
        ("patch", Json.ofOption Json.num v.patch)]

/-- Deserialization of `ProtocolVersionPraos`. -/
def ProtocolVersionPraos.fromJson? (j : Json) : Option ProtocolVersionPraos :=
  ((j.get? "major").bind Json.asNat?).bind fun major =>
  ((j.get? "minor").bind Json.asNat?).bind fun minor =>
  (j.optField "patch" Json.asNat?).bind fun patch =>
  some ⟨major, minor, patch⟩

/-- `BlockIssuerByron` from `src/schema/block.rs`. -/
structure BlockIssuerByron where
  verification_key : String
deriving Repr, DecidableEq

/-- Serialization of `BlockIssuerByron`. -/
def BlockIssuerByron.toJson (v : BlockIssuerByron) : Json :=
  .obj [("verificationKey", .str v.verification_key)]

/-- Deserialization of `BlockIssuerByron`. -/
def BlockIssuerByron.fromJson? (j : Json) : Option BlockIssuerByron :=
  ((j.get? "verificationKey").bind Json.asStr?).bind fun k =>
  some ⟨k⟩

/-- `CertifiedVrf` from `src/schema/block.rs`. -/
structure CertifiedVrf where
  output : String
  proof : String
deriving Repr, DecidableEq

/-- Serialization of `CertifiedVrf`. -/
def CertifiedVrf.toJson (v : CertifiedVrf) : Json :=
  .obj [("output", .str v.output), ("proof", .str v.proof)]

/-- Deserialization of `CertifiedVrf`. -/
def CertifiedVrf.fromJson? (j : Json) : Option CertifiedVrf :=
  ((j.get? "output").bind Json.asStr?).bind fun output =>
  ((j.get? "proof").bind Json.asStr?).bind fun proof =>
  some ⟨output, proof⟩

/-- `OperationalCertificate` from `src/schema/block.rs`. -/
structure OperationalCertificate where
  kes_verification_key : String
  count : Nat
  kes_period : Option Nat
  issue_number : Option Nat
deriving Repr, DecidableEq

/-- Serialization of `OperationalCertificate`. -/
def OperationalCertificate.toJson (v : OperationalCertificate) : Json :=
  .obj [("kesVerificationKey", .str v.kes_verification_key),
        ("count", .num v.count),
        ("kesPeriod", Json.ofOption Json.num v.kes_period),
        ("issueNumber", Json.ofOption Json.num v.issue_number)]

/-- Deserialization of `OperationalCertificate`. -/
def OperationalCertificate.fromJson? (j : Json) : Option OperationalCertificate :=
  ((j.get? "kesVerificationKey").bind Json.asStr?).bind fun k =>
  ((j.get? "count").bind Json.asNat?).bind fun count =>
  (j.optField "kesPeriod" Json.asNat?).bind fun period =>
  (j.optField "issueNumber" Json.asNat?).bind fun issue =>
  some ⟨k, count, period, issue⟩

/-- `BlockIssuerPraos` from `src/schema/block.rs`. -/
structure BlockIssuerPraos where
  verification_key : String
  vrf_verification_key : String
  leader_value : Option CertifiedVrf
  operational_certificate : Option OperationalCertificate
deriving Repr, DecidableEq

/-- Serialization of `BlockIssuerPraos`. -/
def BlockIssuerPraos.toJson (v : BlockIssuerPraos) : Json :=
  .obj [("verificationKey", .str v.verification_key),
        ("vrfVerificationKey", .str v.vrf_verification_key),
        ("leaderValue", Json.ofOption CertifiedVrf.toJson v.leader_value),
        ("operationalCertificate",
          Json.ofOption OperationalCertificate.toJson v.operational_certificate)]

/-- Deserialization of `BlockIssuerPraos`. -/
def BlockIssuerPraos.fromJson? (j : Json) : Option BlockIssuerPraos :=
  ((j.get? "verificationKey").bind Json.asStr?).bind fun vk =>
  ((j.get? "vrfVerificationKey").bind Json.asStr?).bind fun vrf =>
  (j.optField "leaderValue" CertifiedVrf.fromJson?).bind fun lv =>
  (j.optField "operationalCertificate" OperationalCertificate.fromJson?).bind fun oc =>
  some ⟨vk, vrf, lv, oc⟩

/-- `BlockSize` from `src/schema/block.rs`. -/
structure BlockSize where
  bytes : Nat
deriving Repr, DecidableEq

/-- Serialization of `BlockSize`. -/
def BlockSize.toJson (v : BlockSize) : Json := .obj [("bytes", .num v.bytes)]

/-- Deserialization of `BlockSize`. -/
def BlockSize.fromJson? (j : Json) : Option BlockSize :=
  ((j.get? "bytes").bind Json.asNat?).bind fun bytes =>
  some ⟨bytes⟩

/-- `BlockEBB` from `src/schema/block.rs` (the `block_type` field is renamed to
the JSON key "type"). -/
structure BlockEBB where
  block_type : String
  era : String
  id : String
  ancestor : String
  slot : Nat
  height : Nat
deriving Repr, DecidableEq

/-- Serialization of `BlockEBB` (fields in declaration order). -/
def BlockEBB.toJson (b : BlockEBB) : Json :=
  .obj [("type", .str b.block_type), ("era", .str b.era), ("id", .str b.id),
        ("ancestor", .str b.ancestor), ("slot", .num b.slot),
        ("height", .num b.height)]

/-- Deserialization of `BlockEBB`: the six declared fields are required and, as
in all serde-derived structs without deny_unknown_fields, any further fields of
the JSON object are ignored. -/
def BlockEBB.fromJson? (j : Json) : Option BlockEBB :=
  ((j.get? "type").bind Json.asStr?).bind fun t =>
  ((j.get? "era").bind Json.asStr?).bind fun era =>
  ((j.get? "id").bind Json.asStr?).bind fun id =>
  ((j.get? "ancestor").bind Json.asStr?).bind fun ancestor =>
  ((j.get? "slot").bind Json.asNat?).bind fun slot =>
  ((j.get? "height").bind Json.asNat?).bind fun height =>
  some ⟨t, era, id, ancestor, slot, height⟩

/-- Deserialize the `transactions` field: declared `#[serde(default)]`, so a
missing key yields the empty vector; transactions themselves are modelled by
their raw JSON representation (the claims never inspect their contents). -/
def Json.transactionsField (j : Json) : Option (List Json) :=
  match j.get? "transactions" with
  | none => some []
  | some v => v.asArr?

/-- `BlockBFT` from `src/schema/block.rs`; `Transaction` values are modelled by
their raw JSON representation. -/
structure BlockBFT where
  block_type : String
  era : String
  id : String
  ancestor : String
  slot : Nat
  height : Nat
  size : BlockSize
  protocol : ProtocolVersionByron
  issuer : BlockIssuerByron
  transactions : List Json
deriving Repr

/-- Serialization of `BlockBFT`. -/
def BlockBFT.toJson (b : BlockBFT) : Json :=
  .obj [("type", .str b.block_type), ("era", .str b.era), ("id", .str b.id),
        ("ancestor", .str b.ancestor), ("slot", .num b.slot),
        ("height", .num b.height), ("size", b.size.toJson),
        ("protocol", b.protocol.toJson), ("issuer", b.issuer.toJson),
        ("transactions", .arr b.transactions)]

/-- Deserialization of `BlockBFT`. -/
def BlockBFT.fromJson? (j : Json) : Option BlockBFT :=
  ((j.get? "type").bind Json.asStr?).bind fun t =>
  ((j.get? "era").bind Json.asStr?).bind fun era =>
  ((j.get? "id").bind Json.asStr?).bind fun id =>
  ((j.get? "ancestor").bind Json.asStr?).bind fun ancestor =>
  ((j.get? "slot").bind Json.asNat?).bind fun slot =>
  ((j.get? "height").bind Json.asNat?).bind fun height =>
  ((j.get? "size").bind BlockSize.fromJson?).bind fun size =>
  ((j.get? "protocol").bind ProtocolVersionByron.fromJson?).bind fun protocol =>
  ((j.get? "issuer").bind BlockIssuerByron.fromJson?).bind fun issuer =>
  (j.transactionsField).bind fun txs =>
  some ⟨t, era, id, ancestor, slot, height, size, protocol, issuer, txs⟩

/-- `BlockPraos` from `src/schema/block.rs`. -/
structure BlockPraos where
  block_type : String
  era : String
  id : String
  ancestor : String
  slot : Nat
  height : Nat
  size : BlockSize
  protocol : ProtocolVersionPraos
  issuer : BlockIssuerPraos
  transactions : List Json
deriving Repr

/-- Serialization of `BlockPraos`. -/
def BlockPraos.toJson (b : BlockPraos) : Json :=
  .obj [("type", .str b.block_type), ("era", .str b.era), ("id", .str b.id),
        ("ancestor", .str b.ancestor), ("slot", .num b.slot),
        ("height", .num b.height), ("size", b.size.toJson),
        ("protocol", b.protocol.toJson), ("issuer", b.issuer.toJson),
        ("transactions", .arr b.transactions)]

/-- Deserialization of `BlockPraos`. -/
def BlockPraos.fromJson? (j : Json) : Option BlockPraos :=
  ((j.get? "type").bind Json.asStr?).bind fun t =>
  ((j.get? "era").bind Json.asStr?).bind fun era =>
  ((j.get? "id").bind Json.asStr?).bind fun id =>
  ((j.get? "ancestor").bind Json.asStr?).bind fun ancestor =>
  ((j.get? "slot").bind Json.asNat?).bind fun slot =>
  ((j.get? "height").bind Json.asNat?).bind fun height =>
  ((j.get? "size").bind BlockSize.fromJson?).bind fun size =>
  ((j.get? "protocol").bind ProtocolVersionPraos.fromJson?).bind fun protocol =>
  ((j.get? "issuer").bind BlockIssuerPraos.fromJson?).bind fun issuer =>
  (j.transactionsField).bind fun txs =>
  some ⟨t, era, id, ancestor, slot, height, size, protocol, issuer, txs⟩

/-- `Block` from `src/schema/block.rs` (serde untagged: EBB, BFT, Praos). -/
inductive Block where
  | EBB (b : BlockEBB)
  | BFT (b : BlockBFT)
  | Praos (b : BlockPraos)
deriving Repr

/-- `Block::slot()`. -/
def Block.slot : Block → Nat
  | .EBB b => b.slot
  | .BFT b => b.slot
  | .Praos b => b.slot

/-- Serialization of `Block` (untagged: the variant content alone). -/
def Block.toJson : Block → Json
  | .EBB b => b.toJson
  | .BFT b => b.toJson
  | .Praos b => b.toJson

/-- Deserialization of `Block` (serde untagged: variants are tried in
declaration order, `EBB` first; the first variant whose deserializer accepts
the buffered content wins). -/
def Block.fromJson? (j : Json) : Option Block :=
  match BlockEBB.fromJson? j with
  | some b => some (.EBB b)
  | none =>
    match BlockBFT.fromJson? j with
    | some b => some (.BFT b)
    | none => (BlockPraos.fromJson? j).map .Praos

/-- `NextBlockResponse` from `src/schema/jsonrpc.rs` (internally tagged by the
"direction" field, variant names in camelCase). -/
inductive NextBlockResponse where
  | Forward (block : Block) (tip : Tip)
  | Backward (point : Point) (tip : Tip)
deriving Repr

/-- Serialization of `NextBlockResponse` (internally tagged: the tag key is
emitted first, then the variant fields in declaration order). -/
def NextBlockResponse.toJson : NextBlockResponse → Json
  | .Forward block tip =>
      .obj [("direction", .str "forward"), ("block", block.toJson),
            ("tip", tip.toJson)]
  | .Backward point tip =>
      .obj [("direction", .str "backward"), ("point", point.toJson),
            ("tip", tip.toJson)]

/-- Deserialization of `NextBlockResponse`: the "direction" tag selects the
variant, whose named fields are then read from the same object. -/
def NextBlockResponse.fromJson? (j : Json) : Option NextBlockResponse :=
  ((j.get? "direction").bind Json.asStr?).bind fun tag =>
  if tag = "forward" then
    ((j.get? "block").bind Block.fromJson?).bind fun block =>
    ((j.get? "tip").bind Tip.fromJson?).bind fun tip =>
    some (.Forward block tip)
  else if tag = "backward" then
    ((j.get? "point").bind Point.fromJson?).bind fun point =>
    ((j.get? "tip").bind Tip.fromJson?).bind fun tip =>
    some (.Backward point tip)
  else none

/-- `FindIntersectionResponse` from `src/schema/jsonrpc.rs`: absence of the
intersection point signals not-found. -/
structure FindIntersectionResponse where
  intersection : Option Point
  tip : Tip
deriving Repr, DecidableEq

/-- `Intersection` from `src/chain_synchronization/mod.rs`. -/
structure Intersection where
  point : Point
  tip : Tip
deriving Repr, DecidableEq

/-- `OgmiosError` from `src/error.rs`.  Payloads of foreign library error types
(reqwest, serde_json, url, io, tungstenite) are carried as their rendered
messages; the two f64 fields of `ServerNotReady` are modelled as `Float`. -/
inductive OgmiosError where
  | WebSocket (msg : String)
  | HttpHandshake (msg : String)
  | Http (msg : String)
  | Json (msg : String)
  | ServerNotReady (synchronization minimum : Float)
  | ConnectionClosed
  | SocketNotOpen (state : String)
  | InvalidResponse (message : String)
  | Timeout (timeout_ms : Nat)
  | IntersectionNotFound (tip : Option String)
  | SubmissionError (msg : String)
  | EvaluationError (msg : String)
  | AcquisitionError (msg : String)
  | QueryError (msg : String)
  | UrlParse (msg : String)
  | Io (msg : String)
  | ChannelSend (msg : String)
  | ChannelRecv
deriving Repr

/-- `JsonRpcError` from `src/schema/jsonrpc.rs`. -/
structure JsonRpcError where
  code : Int
  message : String
  data : Option Json
deriving Repr

/-- The Display rendering of `JsonRpcError`: "JSON-RPC error code: message". -/
def JsonRpcError.displayString (e : JsonRpcError) : String :=
  "JSON-RPC error " ++ toString e.code ++ ": " ++ e.message

/-- `JsonRpcResponse` from `src/schema/jsonrpc.rs`. -/
structure JsonRpcResponse (R : Type) where
  jsonrpc : String
  result : Option R
  error : Option JsonRpcError
  id : Option Json
deriving Repr

/-- `JsonRpcResponse::into_result`: a carried error wins; otherwise the result;
otherwise a synthesized -32600 invalid-response error. -/
def JsonRpcResponse.into_result (r : JsonRpcResponse R) : Except JsonRpcError R :=
  match r.error with
  | some e => .error e
  | none =>
    match r.result with
    | some v => .ok v
    | none => .error ⟨-32600, "Invalid response: no result or error", none⟩

/-- `DEFAULT_HOST` from `src/connection.rs`. -/
def DEFAULT_HOST : String := "127.0.0.1"

/-- `DEFAULT_PORT` from `src/connection.rs`. -/
def DEFAULT_PORT : Nat := 1337

/-- `DEFAULT_MAX_PAYLOAD` from `src/connection.rs`. -/
def DEFAULT_MAX_PAYLOAD : Nat := 128 * 1024 * 1024

/-- `ConnectionConfig` from `src/connection.rs`. -/
structure ConnectionConfig where
  host : String
  port : Nat
  tls : Bool
  max_payload : Nat
deriving Repr, DecidableEq

/-- `ConnectionConfig::default()`. -/
def ConnectionConfig.default : ConnectionConfig :=
  ⟨DEFAULT_HOST, DEFAULT_PORT, false, DEFAULT_MAX_PAYLOAD⟩

/-- `ConnectionAddress` from `src/connection.rs`. -/
structure ConnectionAddress where
  http : String
  websocket : String
deriving Repr, DecidableEq

/-- `Connection` from `src/connection.rs`. -/
structure Connection where
  max_payload : Nat
  address : ConnectionAddress
deriving Repr, DecidableEq

/-- `Connection::from_config`: scheme selection from the TLS flag, then the two
derived addresses "scheme://host:port". -/
def Connection.from_config (config : ConnectionConfig) : Connection :=
  let scheme := if config.tls then "https" else "http"
  let ws_scheme := if config.tls then "wss" else "ws"
  { max_payload := config.max_payload,
    address :=
      { http := scheme ++ "://" ++ config.host ++ ":" ++ toString config.port,
        websocket := ws_scheme ++ "://" ++ config.host ++ ":" ++ toString config.port } }

/-- `create_connection_object`. -/
def create_connection_object (config : Option ConnectionConfig) : Connection :=
  Connection.from_config (config.getD ConnectionConfig.default)

/-- `ensure_socket_is_open` from `src/connection.rs`. -/
def ensure_socket_is_open (is_socket_open : Bool) : Except OgmiosError Unit :=
  if !is_socket_open then .error (.SocketNotOpen "closed") else .ok ()

/-- The externally observable effects of one `InteractionContext::request`
call, in order: serializing the JSON-RPC payload, then handing it to the
transport actor's channel. -/
inductive RequestEffect where
  | serializePayload
  | channelSend
deriving Repr, DecidableEq

/-- Functional model of `InteractionContext::request` from `src/connection.rs`.
The call first runs `ensure_socket_is_open`; only then does it serialize the
payload and hand it to the actor's channel.  The transport exchange (channel
send, awaited reply, JSON decode of the reply text) is abstracted by
`exchange`, the outcome observed after the payload went out; a decoded reply
is finished through `into_result`, whose error is wrapped as InvalidResponse
with the JSON-RPC error's Display rendering.  The returned list records the
effects the call performed: a call rejected by the open check performs none. -/
def InteractionContext.request (R : Type) (is_socket_open : Bool)
    (exchange : Except OgmiosError (JsonRpcResponse R)) :
    Except OgmiosError R × List RequestEffect :=
  match ensure_socket_is_open is_socket_open with
  | .error e => (.error e, [])
  | .ok _ =>
    match exchange with
    | .error e => (.error e, [.serializePayload, .channelSend])
    | .ok response =>
      match response.into_result with
      | .ok r => (.ok r, [.serializePayload, .channelSend])
      | .error e =>
          (.error (.InvalidResponse e.displayString),
           [.serializePayload, .channelSend])

/-- A resolution delivered to a waiting `request` caller by the transport
actor.  `ok respId` is a reply text frame whose JSON-RPC id is `respId`;
`wsError` is an explicit WebSocket error sent through the caller's oneshot
sender; `senderDropped` is the drop of that sender when the actor terminates,
observed by the caller as ChannelRecv. -/
inductive Resolution where
  | ok (respId : Nat)
  | wsError (msg : String)
  | senderDropped
deriving Repr, DecidableEq

/-- State of `handle_websocket` from `src/connection.rs` and its read task.
`pending` is the Vec of registered oneshot senders, identified by the JSON-RPC
id of the request each caller sent (ids are assigned distinct); the head is
the most recently pushed entry, i.e. the Vec's top, the entry `pop()` yields.
`is_open` is the shared atomic open flag; `readAlive` and `mainAlive` are the
liveness of the spawned read task and of the main send loop; `closeCalls`
counts invocations of the caller-registered close handler; `resolved` lists
the resolutions delivered to callers, in order. -/
structure ActorState where
  pending : List Nat
  is_open : Bool
  readAlive : Bool
  mainAlive : Bool
  closeCalls : Nat
  resolved : List (Nat × Resolution)
deriving Repr, DecidableEq

/-- The state right after `create_interaction_context` spawned the actor. -/
def ActorState.initial : ActorState := ⟨[], true, true, true, 0, []⟩

/-- The events `handle_websocket` reacts to.  The first four are inbound
WebSocket frames handled by the read task; the last two are `WsMessage`s the
main loop receives from the context's channel (`requestMsg caller` is a
`WsMessage::Request` whose write succeeds, registering the caller's sender;
`closeMsg` is `WsMessage::Close`, sent by `shutdown`). -/
inductive WsEvent where
  | inboundText (respId : Nat)
  | inboundClose
  | inboundPing
  | readError (msg : String)
  | requestMsg (caller : Nat)
  | closeMsg
deriving Repr, DecidableEq

/-- One step of the transport actor, following `handle_websocket` line by
line.  A text frame pops the most recent pending sender — whatever the frame's
id — and delivers the frame to it.  An inbound close frame only breaks the
read loop.  A read error fails out every pending sender in pop order and
breaks the read loop.  A request message pushes the caller's sender.  A close
message breaks the main loop, after which the function stores false into the
open flag, aborts the read task, invokes the close handler, and returns —
dropping the pending Vec, which resolves every remaining sender as dropped. -/
def wsStep (s : ActorState) : WsEvent → ActorState
  | .inboundText respId =>
    if s.readAlive then
      match s.pending with
      | [] => s
      | c :: rest =>
          { s with pending := rest, resolved := s.resolved ++ [(c, .ok respId)] }
    else s
  | .inboundClose =>
    if s.readAlive then { s with readAlive := false } else s
  | .inboundPing => s
  | .readError msg =>
    if s.readAlive then
      { s with pending := [], readAlive := false,
               resolved := s.resolved ++ s.pending.map (fun c => (c, .wsError msg)) }
    else s
  | .requestMsg caller =>
    if s.mainAlive then { s with pending := caller :: s.pending } else s
  | .closeMsg =>
    if s.mainAlive then
      { s with pending := [], is_open := false, readAlive := false,
               mainAlive := false, closeCalls := s.closeCalls + 1,
               resolved := s.resolved ++ s.pending.map (fun c => (c, .senderDropped)) }
    else s

/-- Run the transport actor over a sequence of events. -/
def wsRun (s : ActorState) : List WsEvent → ActorState
  | [] => s
  | e :: es => wsRun (wsStep s e) es

/-- `InteractionContext::shutdown`: send a Close message to the actor's main
loop ignoring the send result (the message is processed only when that loop is
still alive), store false into the shared open flag, and return Ok(()). -/
def InteractionContext.shutdown (s : ActorState) :
    ActorState × Except OgmiosError Unit :=
  let s1 := wsStep s .closeMsg
  ({ s1 with is_open := false }, .ok ())

/-- The derive(Debug) rendering of `Tip`, as produced by the format macro in
`find_intersection` (string payloads here never contain characters Debug would
escape). -/
def Tip.debugString : Tip → String
  | .Origin s => "Origin(\"" ++ s ++ "\")"
  | .tip slot id height =>
      "Tip \x7b slot: " ++ toString slot ++ ", id: \"" ++ id ++
        "\", height: " ++ toString height ++ " \x7d"

/-- `find_intersection` from `src/chain_synchronization/mod.rs`, with the
underlying `request("findIntersection", points)` exchange abstracted by a
resolver function from the candidate points to the call's outcome. -/
def find_intersection
    (resolver : List Point → Except OgmiosError FindIntersectionResponse)
    (points : List Point) : Except OgmiosError Intersection :=
  match resolver points with
  | .error e => .error e
  | .ok response =>
    match response.intersection with
    | some point => .ok ⟨point, response.tip⟩
    | none => .error (.IntersectionNotFound (some response.tip.debugString))

/-- One iteration's environment for `run_sync_loop`: the values the loop reads
from the shared running flag, the socket-open flag, and the `next_block` call.
`runningAtErr` is the second read of the running flag, performed inside the
error branch. -/
structure IterIn where
  running : Bool
  sockOpen : Bool
  resp : Except OgmiosError NextBlockResponse
  runningAtErr : Bool
deriving Repr

/-- A handler invocation performed by the sync loop. -/
inductive Dispatch where
  | forward (block : Block) (tip : Tip)
  | backward (point : Point) (tip : Tip)
deriving Repr

/-- The `ChainSynchronizationMessageHandlers` trait: handlers take `&mut self`,
modelled as explicit state of type σ threaded through the calls. -/
structure ChainSynchronizationMessageHandlers (σ : Type) where
  on_roll_forward : σ → Block → Tip → Except OgmiosError σ
  on_roll_backward : σ → Point → Tip → Except OgmiosError σ

/-- How a run of `run_sync_loop` ended.  `notRunning` and `socketClosed` are
the two break-with-Ok checks at the loop head; `failed` is the Err return
(handler failure, or `next_block` failure with the running flag still set);
`stoppedAfterShutdown` is the break when `next_block` fails after the running
flag was cleared; `fuelExhausted` means the modelled environment ended while
the loop would have kept iterating. -/
inductive LoopExit where
  | notRunning
  | socketClosed
  | failed (e : OgmiosError)
  | stoppedAfterShutdown
  | fuelExhausted
deriving Repr

/-- Observable outcome of a `run_sync_loop` run: the handler dispatches in
order, the number of `next_block` requests issued, and how the loop ended. -/
structure LoopRun where
  dispatches : List Dispatch
  requests : Nat
  exit : LoopExit
deriving Repr

/-- `run_sync_loop` from `src/chain_synchronization/client.rs`, driven by the
per-iteration environment list.  Each iteration re-checks the running flag and
the socket, issues one `next_block` request, and dispatches the response to
the matching handler; a handler error is returned immediately, issuing no
further requests.  The `_sequential` option is accepted and unused, as in the
source. -/
def run_sync_loop (h : ChainSynchronizationMessageHandlers σ)
    (_sequential : Bool) : σ → List IterIn → LoopRun
  | _, [] => ⟨[], 0, .fuelExhausted⟩
  | s, i :: rest =>
    if i.running = false then ⟨[], 0, .notRunning⟩
    else if i.sockOpen = false then ⟨[], 0, .socketClosed⟩
    else
      match i.resp with
      | .ok (.Forward block tip) =>
        (match h.on_roll_forward s block tip with
         | .error e => ⟨[.forward block tip], 1, .failed e⟩
         | .ok s1 =>
           let r := run_sync_loop h _sequential s1 rest
           ⟨.forward block tip :: r.dispatches, r.requests + 1, r.exit⟩)
      | .ok (.Backward point tip) =>
        (match h.on_roll_backward s point tip with
         | .error e => ⟨[.backward point tip], 1, .failed e⟩
         | .ok s1 =>
           let r := run_sync_loop h _sequential s1 rest
           ⟨.backward point tip :: r.dispatches, r.requests + 1, r.exit⟩)
      | .error e =>
        if i.runningAtErr then ⟨[], 1, .failed e⟩
        else ⟨[], 1, .stoppedAfterShutdown⟩

/-- `ChainSynchronizationClient::resume`: default the candidate points to
[Origin] when omitted, call `find_intersection`, then store true into the
running flag and spawn the sync loop.  `_in_flight` is accepted and unused, as
in the source.  On success the result carries the intersection, the value
stored into the running flag, and the spawned loop's run over `loopEnv`. -/
def ChainSynchronizationClient.resume
    (resolver : List Point → Except OgmiosError FindIntersectionResponse)
    (h : ChainSynchronizationMessageHandlers σ) (s : σ) (sequential : Bool)
    (points : Option (List Point)) (_in_flight : Option Nat)
    (loopEnv : List IterIn) :
    Except OgmiosError (Intersection × Bool × LoopRun) :=
  let pts := points.getD [Point.origin]
  match find_intersection resolver pts with
  | .error e => .error e
  | .ok intersection =>
      .ok (intersection, true, run_sync_loop h sequential s loopEnv)

/-- Apply the sync loop's dispatch rule for one `nextBlock` response. -/
def dispatchOne (h : ChainSynchronizationMessageHandlers σ) (s : σ) :
    NextBlockResponse → Except OgmiosError σ
  | .Forward block tip => h.on_roll_forward s block tip
  | .Backward point tip => h.on_roll_backward s point tip

/-- Thread the handlers over a list of responses, stopping at the first
failure. -/
def dispatchAll (h : ChainSynchronizationMessageHandlers σ) :
    σ → List NextBlockResponse → Except OgmiosError σ
  | s, [] => .ok s
  | s, r :: rs =>
    match dispatchOne h s r with
    | .error e => .error e
    | .ok s1 => dispatchAll h s1 rs

/-- The dispatch record a response produces. -/
def toDispatch : NextBlockResponse → Dispatch
  | .Forward block tip => .forward block tip
  | .Backward point tip => .backward point tip

/-- A loop iteration environment in which the running flag is set, the socket
is open, and `next_block` returns the given response. -/
def okIter (r : NextBlockResponse) : IterIn := ⟨true, true, .ok r, true⟩

/-- A sample EBB block. -/
def ebbExample : BlockEBB := ⟨"ebb", "byron", "idE", "anc", 10, 1⟩

/-- A sample BFT block (empty transaction list, no software version, no
update proposal). -/
def bftExample : BlockBFT :=
  ⟨"bft", "byron", "idB", "anc", 3, 4, ⟨100⟩, ⟨none, none⟩, ⟨"vk"⟩, []⟩

/-- A sample forward chain event carrying an EBB block. -/
def forwardExample : NextBlockResponse :=
  .Forward (.EBB ebbExample) (.tip 10 "tipid" 1)

/-- Handlers that count forward dispatches and fail on the fifth one. -/
def failOnFifthHandlers : ChainSynchronizationMessageHandlers Nat :=
  ⟨fun n _ _ => if n + 1 = 5 then .error (.QueryError "stop") else .ok (n + 1),
   fun n _ _ => .ok n⟩

/-- Handlers that always succeed and carry no state. -/
def trivialHandlers : ChainSynchronizationMessageHandlers Unit :=
  ⟨fun _ _ _ => .ok (), fun _ _ _ => .ok ()⟩

/-- C7: a `request` call on an interaction context whose transport is already
closed fails synchronously with the "socket not open" error and performs no
effect at all: the payload is neither serialized nor handed to the transport,
whatever the rest of the exchange would have produced. -/
theorem request_on_closed_socket_fails_fast (R : Type)
    (exchange : Except OgmiosError (JsonRpcResponse R)) :
    InteractionContext.request R false exchange
      = (.error (.SocketNotOpen "closed"), []) := rfl

/-- C9: both derived addresses of `Connection::from_config` use the scheme
pair selected solely by the TLS flag (http with ws, https with wss), and share
one "host:port" tail taken from the config. -/
theorem from_config_scheme_pairing (config : ConnectionConfig) :
    (config.tls = false →
      ∃ hostport,
        (Connection.from_config config).address.http = "http://" ++ hostport
        ∧ (Connection.from_config config).address.websocket = "ws://" ++ hostport
        ∧ hostport = config.host ++ ":" ++ toString config.port)
    ∧ (config.tls = true →
      ∃ hostport,
        (Connection.from_config config).address.http = "https://" ++ hostport
        ∧ (Connection.from_config config).address.websocket = "wss://" ++ hostport
        ∧ hostport = config.host ++ ":" ++ toString config.port) := by
  constructor <;> intro h <;>
    refine ⟨config.host ++ ":" ++ toString config.port, ?_, ?_, rfl⟩ <;>
    simp [Connection.from_config, h, String.append_assoc]

/-- Witness for C9 at a concrete non-TLS and a concrete TLS config. -/
theorem from_config_scheme_pairing_witness :
    (∃ hostport,
      (Connection.from_config ⟨"localhost", 1338, false, 64⟩).address.http
          = "http://" ++ hostport
      ∧ (Connection.from_config ⟨"localhost", 1338, false, 64⟩).address.websocket
          = "ws://" ++ hostport
      ∧ hostport = "localhost" ++ ":" ++ toString (1338 : Nat))
    ∧ (∃ hostport,
      (Connection.from_config ⟨"localhost", 1338, true, 64⟩).address.http
          = "https://" ++ hostport
      ∧ (Connection.from_config ⟨"localhost", 1338, true, 64⟩).address.websocket
          = "wss://" ++ hostport
      ∧ hostport = "localhost" ++ ":" ++ toString (1338 : Nat)) :=
  ⟨(from_config_scheme_pairing ⟨"localhost", 1338, false, 64⟩).1 rfl,
   (from_config_scheme_pairing ⟨"localhost", 1338, true, 64⟩).2 rfl⟩

/-- C10: a reply that decodes but carries neither result nor error is finished
by `into_result` as the synthesized JSON-RPC error with code -32600 and
message "Invalid response: no result or error", and `request` surfaces it as a
typed InvalidResponse failure wrapping that error's rendering — not as a
success and not as a panic. -/
theorem request_no_result_no_error_is_invalid_response (R : Type)
    (response : JsonRpcResponse R)
    (hres : response.result = none) (herr : response.error = none) :
    response.into_result
      = .error ⟨-32600, "Invalid response: no result or error", none⟩
    ∧ InteractionContext.request R true (.ok response)
      = (.error (.InvalidResponse
          "JSON-RPC error -32600: Invalid response: no result or error"),
         [.serializePayload, .channelSend]) := by
  have h1 : response.into_result
      = .error ⟨-32600, "Invalid response: no result or error", none⟩ := by
    unfold JsonRpcResponse.into_result
    rw [herr, hres]
  refine ⟨h1, ?_⟩
  simp only [InteractionContext.request, ensure_socket_is_open, Bool.not_true,
    Bool.false_eq_true, if_false, h1]
  rfl

/-- Witness for C10 at a concrete empty reply. -/
theorem request_no_result_no_error_is_invalid_response_witness :
    (⟨"2.0", none, none, none⟩ : JsonRpcResponse Nat).into_result
      = .error ⟨-32600, "Invalid response: no result or error", none⟩
    ∧ InteractionContext.request Nat true (.ok ⟨"2.0", none, none, none⟩)
      = (.error (.InvalidResponse
          "JSON-RPC error -32600: Invalid response: no result or error"),
         [.serializePayload, .channelSend]) :=
  request_no_result_no_error_is_invalid_response Nat ⟨"2.0", none, none, none⟩ rfl rfl

/-- C6: when the remote's reply carries no intersection point,
`find_intersection` returns the typed IntersectionNotFound failure carrying
the tip reported in that same reply (rendered by Debug), not a decode error;
when the reply carries a point, it returns the Intersection pairing that point
with the reported tip. -/
theorem find_intersection_not_found_carries_tip
    (resolver : List Point → Except OgmiosError FindIntersectionResponse)
    (points : List Point) (response : FindIntersectionResponse)
    (hresolve : resolver points = .ok response) :
    (response.intersection = none →
      find_intersection resolver points
        = .error (.IntersectionNotFound (some response.tip.debugString)))
    ∧ (∀ p, response.intersection = some p →
      find_intersection resolver points = .ok ⟨p, response.tip⟩) := by
  refine ⟨fun h => ?_, fun p h => ?_⟩ <;> simp [find_intersection, hresolve, h]

/-- Witness for C6: a resolver that reports no intersection with tip Origin,
and one that reports the Origin point. -/
theorem find_intersection_not_found_carries_tip_witness :
    find_intersection (fun _ => .ok ⟨none, .Origin "origin"⟩) [Point.origin]
      = .error (.IntersectionNotFound (some ((Tip.Origin "origin").debugString)))
    ∧ find_intersection (fun _ => .ok ⟨some (Point.at 7 "h"), .tip 9 "t" 2⟩) [Point.origin]
      = .ok ⟨Point.at 7 "h", .tip 9 "t" 2⟩ :=
  ⟨(find_intersection_not_found_carries_tip
      (fun _ => .ok ⟨none, .Origin "origin"⟩) [Point.origin]
      ⟨none, .Origin "origin"⟩ rfl).1 rfl,
   (find_intersection_not_found_carries_tip
      (fun _ => .ok ⟨some (Point.at 7 "h"), .tip 9 "t" 2⟩) [Point.origin]
      ⟨some (Point.at 7 "h"), .tip 9 "t" 2⟩ rfl).2 (Point.at 7 "h") rfl⟩

/-- C1 (evaluation at the failing input): the transport actor correlates
responses by popping the most recently registered pending sender, ignoring
the id carried by the inbound frame.  With three in-flight requests (ids 1, 2,
3) and replies arriving in reverse order, every caller happens to receive its
own reply — the spec's showcase permutation passes by stack-order coincidence
— but with two in-flight requests and replies arriving in issue order, caller
2 receives the reply carrying id 1 and caller 1 the reply carrying id 2, so
delivery keyed by the response's identifier fails for arbitrary
permutations. -/
theorem correlation_pops_most_recent_pending :
    (wsRun ActorState.initial
      [.requestMsg 1, .requestMsg 2, .requestMsg 3,
       .inboundText 3, .inboundText 2, .inboundText 1]).resolved
      = [(3, .ok 3), (2, .ok 2), (1, .ok 1)]
    ∧ (wsRun ActorState.initial
      [.requestMsg 1, .requestMsg 2, .inboundText 1, .inboundText 2]).resolved
      = [(2, .ok 1), (1, .ok 2)] := by decide

/-- C2 (evaluation at the failing input): after one request goes out and the
server sends a close frame, only the read loop exits: the pending caller stays
registered with no resolution, the open flag is still true, the main loop is
still alive, and the close handler was never invoked — and with the read loop
gone, no amount of further inbound traffic resolves the caller or fires the
handler.  On the read-error path the pending entries are failed out, but the
open flag, the main loop, and the close handler are likewise untouched. -/
theorem inbound_close_leaves_pending_unresolved :
    (let s1 := wsRun ActorState.initial [.requestMsg 1, .inboundClose]
     s1.pending = [1] ∧ s1.is_open = true ∧ s1.mainAlive = true
       ∧ s1.readAlive = false ∧ s1.closeCalls = 0 ∧ s1.resolved = []
       ∧ (wsRun s1 [.inboundText 1, .readError "io", .inboundClose,
            .inboundPing]).resolved = []
       ∧ (wsRun s1 [.inboundText 1, .readError "io", .inboundClose,
            .inboundPing]).closeCalls = 0)
    ∧ (let s2 := wsRun ActorState.initial [.requestMsg 1, .readError "io"]
       s2.resolved = [(1, .wsError "io")] ∧ s2.is_open = true
         ∧ s2.mainAlive = true ∧ s2.closeCalls = 0) := by decide

/-- C3: shutting down while a request is in flight resolves that caller:
shutdown returns Ok, the actor tears down, and every pending caller — the
in-flight one included — is resolved by the drop of its oneshot sender, which
its `request` call observes as the ChannelRecv failure rather than hanging;
afterwards the open flag is false and no caller is left pending.  A second
shutdown after the first is a no-op that also returns Ok and leaves the state
— the closed flag included — unchanged. -/
theorem shutdown_resolves_inflight_and_is_idempotent
    (s : ActorState) (caller : Nat)
    (halive : s.mainAlive = true) (hin : caller ∈ s.pending) :
    (InteractionContext.shutdown s).2 = .ok ()
    ∧ (caller, Resolution.senderDropped)
        ∈ (InteractionContext.shutdown s).1.resolved
    ∧ (InteractionContext.shutdown s).1.pending = []
    ∧ (InteractionContext.shutdown s).1.is_open = false
    ∧ InteractionContext.shutdown (InteractionContext.shutdown s).1
        = ((InteractionContext.shutdown s).1, .ok ()) := by
  simp only [InteractionContext.shutdown, wsStep, halive, if_true]
  refine ⟨by trivial, ?_, by trivial, by trivial, by trivial⟩
  exact List.mem_append_right _ (List.mem_map.mpr ⟨caller, hin, rfl⟩)

/-- Witness for C3: one request (id 7) in flight on a live actor. -/
theorem shutdown_resolves_inflight_and_is_idempotent_witness :
    (InteractionContext.shutdown ⟨[7], true, true, true, 0, []⟩).2 = .ok ()
    ∧ (7, Resolution.senderDropped)
        ∈ (InteractionContext.shutdown ⟨[7], true, true, true, 0, []⟩).1.resolved
    ∧ (InteractionContext.shutdown ⟨[7], true, true, true, 0, []⟩).1.pending = []
    ∧ (InteractionContext.shutdown ⟨[7], true, true, true, 0, []⟩).1.is_open = false
    ∧ InteractionContext.shutdown
        (InteractionContext.shutdown ⟨[7], true, true, true, 0, []⟩).1
        = ((InteractionContext.shutdown ⟨[7], true, true, true, 0, []⟩).1, .ok ()) :=
  shutdown_resolves_inflight_and_is_idempotent ⟨[7], true, true, true, 0, []⟩ 7
    rfl (by decide)

/-- Any sync loop iteration whose running flag is set and whose socket is open
issues a `next_block` request before anything else can stop the loop. -/
theorem run_sync_loop_issues_request (h : ChainSynchronizationMessageHandlers σ)
    (seq : Bool) (s : σ) (i : IterIn) (rest : List IterIn)
    (hr : i.running = true) (ho : i.sockOpen = true) :
    1 ≤ (run_sync_loop h seq s (i :: rest)).requests := by
  simp only [run_sync_loop, hr, ho]
  simp only [Bool.true_eq_false, if_false]
  cases hresp : i.resp with
  | error e => cases hra : i.runningAtErr <;> simp [hra]
  | ok r =>
    cases r with
    | Forward block tip => cases hf : h.on_roll_forward s block tip <;> simp [hf]
    | Backward point tip => cases hb : h.on_roll_backward s point tip <;> simp [hb]

/-- One step of the sync loop on an iteration whose running flag is set and
whose socket is open: the response is dispatched; a handler failure ends the
run with that error after this single request, a handler success prepends the
dispatch and continues. -/
theorem run_sync_loop_okIter_cons (h : ChainSynchronizationMessageHandlers σ)
    (seq : Bool) (s : σ) (r : NextBlockResponse) (rest : List IterIn) :
    run_sync_loop h seq s (okIter r :: rest)
      = match dispatchOne h s r with
        | .error e => ⟨[toDispatch r], 1, .failed e⟩
        | .ok s1 =>
            ⟨toDispatch r :: (run_sync_loop h seq s1 rest).dispatches,
             (run_sync_loop h seq s1 rest).requests + 1,
             (run_sync_loop h seq s1 rest).exit⟩ := by
  cases r with
  | Forward block tip =>
    cases hf : h.on_roll_forward s block tip <;>
      simp [run_sync_loop, okIter, dispatchOne, toDispatch, hf]
  | Backward point tip =>
    cases hb : h.on_roll_backward s point tip <;>
      simp [run_sync_loop, okIter, dispatchOne, toDispatch, hb]

/-- C4: if the handlers succeed on a prefix `pre` of dispatched events and
fail with error `e` on the next one, the sync loop run over those responses
(running flag set and socket open throughout) performs exactly the
`pre.length + 1` dispatches, returns the Err carrying the handler's error, and
issues exactly `pre.length + 1` requests — the one that produced the failing
event and none after it, whatever responses the environment still held. -/
theorem sync_loop_stops_at_kth_handler_failure
    (h : ChainSynchronizationMessageHandlers σ) (seq : Bool) (s s' : σ)
    (pre : List NextBlockResponse) (failResp : NextBlockResponse)
    (post : List NextBlockResponse) (e : OgmiosError)
    (hpre : dispatchAll h s pre = .ok s')
    (hfail : dispatchOne h s' failResp = .error e) :
    run_sync_loop h seq s ((pre ++ failResp :: post).map okIter)
      = ⟨(pre ++ [failResp]).map toDispatch, pre.length + 1, .failed e⟩ := by
  induction pre generalizing s with
  | nil =>
    simp only [dispatchAll] at hpre
    injection hpre with hs
    subst hs
    simp only [List.nil_append, List.map_cons, run_sync_loop_okIter_cons, hfail]
    simp
  | cons r rs ih =>
    simp only [dispatchAll] at hpre
    cases hd : dispatchOne h s r with
    | error e2 => rw [hd] at hpre; exact Except.noConfusion hpre
    | ok s1 =>
      rw [hd] at hpre
      have ihr := ih s1 hpre
      simp only [List.cons_append, List.map_cons, run_sync_loop_okIter_cons, hd]
      simp only [ihr]
      simp

/-- Witness for C4, the spec's own scenario: handlers that fail on their fifth
forward dispatch, an environment holding seven forward events.  The loop stops
with the handler's error after exactly five dispatches and five requests. -/
theorem sync_loop_stops_at_kth_handler_failure_witness :
    run_sync_loop failOnFifthHandlers false 0
        ((List.replicate 4 forwardExample
          ++ forwardExample :: List.replicate 2 forwardExample).map okIter)
      = ⟨(List.replicate 4 forwardExample ++ [forwardExample]).map toDispatch,
         (List.replicate 4 forwardExample).length + 1, .failed (.QueryError "stop")⟩ :=
  sync_loop_stops_at_kth_handler_failure failOnFifthHandlers false 0 4
    (List.replicate 4 forwardExample) forwardExample
    (List.replicate 2 forwardExample) (.QueryError "stop") rfl rfl

/-- C5: a `resume` call with the points argument omitted is definitionally the
call with `[Origin]`; when the resolver reports the Origin point with the
Origin tip, `resume` returns exactly that intersection, stores true into the
running flag, and the spawned loop — whose first iteration sees the running
flag set and the socket open — issues at least one `next_block` request. -/
theorem resume_defaults_points_to_origin
    (resolver : List Point → Except OgmiosError FindIntersectionResponse)
    (h : ChainSynchronizationMessageHandlers σ) (s : σ) (seq : Bool)
    (inFlight : Option Nat) (env : List IterIn) (os ts : String)
    (hresolve : resolver [Point.origin] = .ok ⟨some (.Origin os), .Origin ts⟩) :
    (∀ (ifl : Option Nat) (env2 : List IterIn),
      ChainSynchronizationClient.resume resolver h s seq none ifl env2
        = ChainSynchronizationClient.resume resolver h s seq
            (some [Point.origin]) ifl env2)
    ∧ ChainSynchronizationClient.resume resolver h s seq none inFlight env
        = .ok (⟨.Origin os, .Origin ts⟩, true, run_sync_loop h seq s env)
    ∧ (∀ i rest, env = i :: rest → i.running = true → i.sockOpen = true →
        1 ≤ (run_sync_loop h seq s env).requests) := by
  refine ⟨fun ifl env2 => rfl, ?_, ?_⟩
  · simp [ChainSynchronizationClient.resume, find_intersection, hresolve]
  · rintro i rest rfl hr ho
    exact run_sync_loop_issues_request h seq s i rest hr ho

/-- Witness for C5: a resolver answering Origin/Origin, trivial handlers, and
an environment with one live iteration. -/
theorem resume_defaults_points_to_origin_witness :
    ChainSynchronizationClient.resume
        (fun _ => .ok ⟨some Point.origin, .Origin "origin"⟩) trivialHandlers ()
        false none none [okIter (.Backward Point.origin (.Origin "origin"))]
      = .ok (⟨Point.origin, .Origin "origin"⟩, true,
          run_sync_loop trivialHandlers false ()
            [okIter (.Backward Point.origin (.Origin "origin"))])
    ∧ 1 ≤ (run_sync_loop trivialHandlers false ()
        [okIter (.Backward Point.origin (.Origin "origin"))]).requests := by
  have hth := resume_defaults_points_to_origin
      (fun _ => .ok ⟨some Point.origin, .Origin "origin"⟩) trivialHandlers ()
      false none [okIter (.Backward Point.origin (.Origin "origin"))]
      "origin" "origin" rfl
  exact ⟨hth.2.1, hth.2.2 _ _ rfl rfl rfl⟩

/-- C8 (amended): serializing then deserializing round-trips every `Point` and
every `Tip` value, the Origin variants included; for chain events it
round-trips every RollBackward event and every RollForward event whose block
is an EBB block.  RollForward events carrying BFT or Praos blocks are the
exception established by the counterexample. -/
theorem serde_round_trip_point_tip_event :
    (∀ p : Point, Point.fromJson? (Point.toJson p) = some p)
    ∧ (∀ t : Tip, Tip.fromJson? (Tip.toJson t) = some t)
    ∧ (∀ (point : Point) (tip : Tip),
        NextBlockResponse.fromJson?
            (NextBlockResponse.toJson (.Backward point tip))
          = some (.Backward point tip))
    ∧ (∀ (b : BlockEBB) (tip : Tip),
        NextBlockResponse.fromJson?
            (NextBlockResponse.toJson (.Forward (.EBB b) tip))
          = some (.Forward (.EBB b) tip)) :=
  ⟨fun p => by cases p <;> rfl,
   fun t => by cases t <;> rfl,
   fun point tip => by cases point <;> cases tip <;> rfl,
   fun b tip => by cases tip <;> rfl⟩

/-- C8 (counterexample): the RollForward event carrying the sample BFT block
does not round-trip.  Serialization emits the full BFT object; the untagged
`Block` deserializer tries the EBB variant first and, since serde-derived
structs ignore unknown fields, accepts it — so the event comes back with its
block reinterpreted as an EBB block, different from the original value. -/
theorem serde_round_trip_fails_for_bft_forward :
    NextBlockResponse.fromJson?
        (NextBlockResponse.toJson (.Forward (.BFT bftExample) (.Origin "origin")))
      = some (.Forward (.EBB ⟨"bft", "byron", "idB", "anc", 3, 4⟩) (.Origin "origin"))
    ∧ NextBlockResponse.fromJson?
        (NextBlockResponse.toJson (.Forward (.BFT bftExample) (.Origin "origin")))
      ≠ some (.Forward (.BFT bftExample) (.Origin "origin")) := by
  refine ⟨rfl, fun hcontra => ?_⟩
  rw [show NextBlockResponse.fromJson?
        (NextBlockResponse.toJson (.Forward (.BFT bftExample) (.Origin "origin")))
      = some (.Forward (.EBB ⟨"bft", "byron", "idB", "anc", 3, 4⟩) (.Origin "origin"))
    from rfl] at hcontra
  injection hcontra with h1
  injection h1 with hb ht
  exact Block.noConfusion hb

end Ogmios





